import Mathlib

/-!
Verification development for the FeatureFlag service.

Shallow embedding of the evaluation core of the repository:
- `app/services/evaluation.py` (`EvaluationService.evaluate`,
  `EvaluationService._evaluate_flag_data`, `EvaluationService._get_bucket`),
- `app/cache.py` (`CacheService`),
- the relevant router operations from `app/routers/flags.py` and
  `app/routers/environments.py`.

Machine integers are modelled as `Nat` with explicit `% 2^32` where the MD5
arithmetic wraps.  Python exceptions are modelled with `Except String`.
-/

set_option maxRecDepth 100000

namespace FeatureFlag

/-! ### MD5 (embedding of `hashlib.md5(...).hexdigest()`)

Byte strings are `List Nat` with every element < 256.  All 32-bit arithmetic
is `Nat` reduced modulo `2^32 = 4294967296`. -/

/-- Little-endian byte decomposition: `k` bytes of `n`. -/
def toLEBytes : Nat → Nat → List Nat
  | 0, _ => []
  | k + 1, n => (n % 256) :: toLEBytes k (n / 256)

/-- MD5 padding: append `0x80`, zero bytes until the length is 56 mod 64,
then the original length in bits as 8 little-endian bytes. -/
def padMessage (msg : List Nat) : List Nat :=
  let len := msg.length
  let padLen := (119 - len % 64) % 64
  msg ++ [0x80] ++ List.replicate padLen 0 ++ toLEBytes 8 (len * 8)

/-- One little-endian 32-bit word from the first four bytes of a list. -/
def leWord : List Nat → Nat
  | b0 :: b1 :: b2 :: b3 :: _ => b0 + 256 * b1 + 65536 * b2 + 16777216 * b3
  | _ => 0

/-- The sixteen message words of one 64-byte block. -/
def blockWords (block : List Nat) : List Nat :=
  (List.range 16).map (fun i => leWord (block.drop (4 * i)))

/-- The MD5 per-round addition constants (`floor(2^32 * abs(sin(i+1)))`). -/
def mdK : List Nat :=
  [0xd76aa478, 0xe8c7b756, 0x242070db, 0xc1bdceee,
   0xf57c0faf, 0x4787c62a, 0xa8304613, 0xfd469501,
   0x698098d8, 0x8b44f7af, 0xffff5bb1, 0x895cd7be,
   0x6b901122, 0xfd987193, 0xa679438e, 0x49b40821,
   0xf61e2562, 0xc040b340, 0x265e5a51, 0xe9b6c7aa,
   0xd62f105d, 0x02441453, 0xd8a1e681, 0xe7d3fbc8,
   0x21e1cde6, 0xc33707d6, 0xf4d50d87, 0x455a14ed,
   0xa9e3e905, 0xfcefa3f8, 0x676f02d9, 0x8d2a4c8a,
   0xfffa3942, 0x8771f681, 0x6d9d6122, 0xfde5380c,
   0xa4beea44, 0x4bdecfa9, 0xf6bb4b60, 0xbebfbc70,
   0x289b7ec6, 0xeaa127fa, 0xd4ef3085, 0x04881d05,
   0xd9d4d039, 0xe6db99e5, 0x1fa27cf8, 0xc4ac5665,
   0xf4292244, 0x432aff97, 0xab9423a7, 0xfc93a039,
   0x655b59c3, 0x8f0ccc92, 0xffeff47d, 0x85845dd1,
   0x6fa87e4f, 0xfe2ce6e0, 0xa3014314, 0x4e0811a1,
   0xf7537e82, 0xbd3af235, 0x2ad7d2bb, 0xeb86d391]

/-- The MD5 per-round left-rotation amounts. -/
def mdS : List Nat :=
  [7, 12, 17, 22, 7, 12, 17, 22, 7, 12, 17, 22, 7, 12, 17, 22,
   5, 9, 14, 20, 5, 9, 14, 20, 5, 9, 14, 20, 5, 9, 14, 20,
   4, 11, 16, 23, 4, 11, 16, 23, 4, 11, 16, 23, 4, 11, 16, 23,
   6, 10, 15, 21, 6, 10, 15, 21, 6, 10, 15, 21, 6, 10, 15, 21]

/-- Left rotation of a 32-bit word. -/
def rotl32 (x n : Nat) : Nat :=
  ((x <<< n) ||| (x >>> (32 - n))) % 4294967296

structure MD5State where
  a : Nat
  b : Nat
  c : Nat
  d : Nat
deriving Repr, DecidableEq

/-- One of the 64 MD5 rounds (round index `i`, message words `M`). -/
def md5Step (M : List Nat) (st : MD5State) (i : Nat) : MD5State :=
  let fg : Nat × Nat :=
    if i < 16 then
      ((st.b &&& st.c) ||| ((st.b ^^^ 0xffffffff) &&& st.d), i)
    else if i < 32 then
      ((st.d &&& st.b) ||| ((st.d ^^^ 0xffffffff) &&& st.c), (5 * i + 1) % 16)
    else if i < 48 then
      (st.b ^^^ st.c ^^^ st.d, (3 * i + 5) % 16)
    else
      (st.c ^^^ (st.b ||| (st.d ^^^ 0xffffffff)), (7 * i) % 16)
  let f := (fg.1 + st.a + mdK.getD i 0 + M.getD fg.2 0) % 4294967296
  { a := st.d
    b := (st.b + rotl32 f (mdS.getD i 0)) % 4294967296
    c := st.b
    d := st.c }

/-- Process one 64-byte block: run the 64 rounds and add the result to the
incoming state, mod `2^32`. -/
def processBlock (st : MD5State) (block : List Nat) : MD5State :=
  let M := blockWords block
  let f := (List.range 64).foldl (md5Step M) st
  { a := (st.a + f.a) % 4294967296
    b := (st.b + f.b) % 4294967296
    c := (st.c + f.c) % 4294967296
    d := (st.d + f.d) % 4294967296 }

/-- Fold over the blocks of an (already padded) message; `k` is the number of
64-byte blocks, so recursion is structural. -/
def md5Blocks : Nat → List Nat → MD5State → MD5State
  | 0, _, st => st
  | k + 1, l, st => md5Blocks k (l.drop 64) (processBlock st (l.take 64))

def md5Init : MD5State :=
  ⟨0x67452301, 0xefcdab89, 0x98badcfe, 0x10325476⟩

/-- The 16 digest bytes of a byte message. -/
def md5Digest (msg : List Nat) : List Nat :=
  let padded := padMessage msg
  let f := md5Blocks (padded.length / 64) padded md5Init
  toLEBytes 4 f.a ++ toLEBytes 4 f.b ++ toLEBytes 4 f.c ++ toLEBytes 4 f.d

/-- Lowercase hex character of a value < 16. -/
def hexChar (n : Nat) : Char :=
  if n < 10 then Char.ofNat (48 + n) else Char.ofNat (87 + n)

/-- Two lowercase hex characters of a byte. -/
def byteToHexChars (b : Nat) : List Char :=
  [hexChar (b / 16), hexChar (b % 16)]

/-- Embedding of `hashlib.md5(bytes).hexdigest()`. -/
def hexdigest (msg : List Nat) : String :=
  String.mk ((md5Digest msg).map byteToHexChars).flatten

/-! ### UTF-8 encoding (embedding of Python `str.encode()`) -/

/-- UTF-8 bytes of one unicode scalar value. -/
def utf8EncodeChar (c : Char) : List Nat :=
  let n := c.toNat
  if n < 0x80 then [n]
  else if n < 0x800 then
    [0xc0 ||| (n >>> 6), 0x80 ||| (n &&& 0x3f)]
  else if n < 0x10000 then
    [0xe0 ||| (n >>> 12), 0x80 ||| ((n >>> 6) &&& 0x3f), 0x80 ||| (n &&& 0x3f)]
  else
    [0xf0 ||| (n >>> 18), 0x80 ||| ((n >>> 12) &&& 0x3f),
     0x80 ||| ((n >>> 6) &&& 0x3f), 0x80 ||| (n &&& 0x3f)]

/-- Embedding of Python `s.encode()` (UTF-8 bytes of a string). -/
def utf8Encode (s : String) : List Nat :=
  (s.data.map utf8EncodeChar).flatten

/-! ### Bucketing (embedding of `EvaluationService._get_bucket`) -/

/-- Value of one lowercase/uppercase hex digit. -/
def hexVal (c : Char) : Nat :=
  if c.toNat ≥ 97 then c.toNat - 87
  else if c.toNat ≥ 65 then c.toNat - 55
  else c.toNat - 48

/-- Embedding of Python `int(s, 16)` on a hex-digit string. -/
def parseHex (l : List Char) : Nat :=
  l.foldl (fun acc c => 16 * acc + hexVal c) 0

/-- Embedding of `EvaluationService._get_bucket` (evaluation.py:168-194):
`combined = f"\x7bflag_key\x7d:\x7buser_id\x7d"`, MD5 hexdigest of its UTF-8
bytes, first 8 hex characters parsed base 16, reduced modulo 100. -/
def get_bucket (flag_key user_id : String) : Nat :=
  let combined := flag_key ++ ":" ++ user_id
  let hash_hex := hexdigest (utf8Encode combined)
  let hash_int := parseHex (hash_hex.toList.take 8)
  hash_int % 100

/-- Reference bucketing definition, written from the spec's words (§4.1):
concatenate with separator ":", MD5 digest over the UTF-8 bytes, first 8 hex
characters of the hex digest parsed as a 32-bit unsigned integer, modulo
100.  Kept separate from `get_bucket` so the two can be compared. -/
def bucket_spec (flag_key user_id : String) : Nat :=
  parseHex ((hexdigest (utf8Encode (flag_key ++ ":" ++ user_id))).toList.take 8) % 100

/-! ### Data model

Evaluation-relevant projection of the SQLAlchemy rows (`app/models`).
Fields that no claim touches (names, descriptions, timestamps) are omitted.
`FlagType` is a string enum in the source (`"boolean"` / `"percentage"`);
`flag_type` is kept as the string the code compares against. -/

/-- A row of the `environments` table (`app/models/environment.py`). -/
structure EnvRec where
  id : String
  key : String
deriving Repr, DecidableEq

/-- A row of the `flags` table (`app/models/flag.py`). -/
structure FlagRec where
  key : String
  environment_id : String
  is_enabled : Bool
  flag_type : String
  rollout_percentage : Nat
deriving Repr, DecidableEq

/-- The authoritative store: one list per table.  `query(...).first()` is
`List.find?`. -/
structure Db where
  environments : List EnvRec
  flags : List FlagRec
deriving Repr, DecidableEq

/-- The denormalized flag projection built in `evaluate` (evaluation.py:85-89)
and stored in the cache.  The JSON round-trip (`json.dumps` / `json.loads` of
this three-field record) is modelled as the identity. -/
structure FlagData where
  is_enabled : Bool
  flag_type : String
  rollout_percentage : Nat
deriving Repr, DecidableEq

/-- The evaluation result dict (evaluation.py:37-42). -/
structure EvalResult where
  enabled : Bool
  flag_key : String
  reason : String
  cached : Bool
deriving Repr, DecidableEq

/-- The Redis state seen through `CacheService`: the live entries, plus a
`failing` bit modelling the backend being unreachable, in which case every
Redis command raises (the source has no exception handling anywhere on the
cache path, so a raise propagates). -/
structure CacheState where
  entries : List (String × FlagData)
  failing : Bool
deriving Repr, DecidableEq

/-- The error a raising Redis command is modelled with. -/
def redisDown : String := "redis.exceptions.ConnectionError"

/-- A single quote character, for reason strings built with f-strings. -/
def sq : String := String.singleton (Char.ofNat 39)

/-- Character-list prefix test (used to model the Redis `KEYS` glob
`flag:\x7benvironment_key\x7d:*`, whose only wildcard is the trailing `*`,
i.e. a prefix match). -/
def listPrefix : List Char → List Char → Bool
  | [], _ => true
  | _ :: _, [] => false
  | a :: as, b :: bs => a == b && listPrefix as bs

/-- Prefix test on strings. -/
def strPrefix (pre s : String) : Bool :=
  listPrefix pre.toList s.toList

/-! ### CacheService (embedding of `app/cache.py`) -/

namespace CacheService

/-- Embedding of `CacheService._make_key` (cache.py:24-31). -/
def make_key (flag_key environment_key : String) : String :=
  "flag:" ++ environment_key ++ ":" ++ flag_key

/-- Embedding of `CacheService.get_flag` (cache.py:33-45): `client.get` on the key, JSON
decode on a hit, `None` on a miss.  Raises when the backend is down. -/
def get_flag (c : CacheState) (flag_key environment_key : String) :
    Except String (Option FlagData) :=
  if c.failing then .error redisDown
  else
    .ok ((c.entries.find?
      (fun e => e.1 == make_key flag_key environment_key)).map (fun e => e.2))

/-- Embedding of `CacheService.set_flag` (cache.py:47-61): `setex` — unconditional
overwrite with a TTL.  TTL expiry itself is outside the model (the claims
about the cache all assume no expiry between the calls considered). -/
def set_flag (c : CacheState) (flag_key environment_key : String)
    (flag_data : FlagData) : Except String CacheState :=
  if c.failing then .error redisDown
  else
    .ok { c with entries :=
      (make_key flag_key environment_key, flag_data) ::
        c.entries.filter (fun e => e.1 != make_key flag_key environment_key) }

/-- Embedding of `CacheService.invalidate_flag` (cache.py:63-68): `client.delete` on the
one key. -/
def invalidate_flag (c : CacheState) (flag_key environment_key : String) :
    Except String CacheState :=
  if c.failing then .error redisDown
  else
    .ok { c with entries :=
      c.entries.filter (fun e => e.1 != make_key flag_key environment_key) }

/-- Embedding of `CacheService.invalidate_environment` (cache.py:70-78): delete every key
matching the glob `flag:\x7benvironment_key\x7d:*`, i.e. every key starting
with that prefix. -/
def invalidate_environment (c : CacheState) (environment_key : String) :
    Except String CacheState :=
  if c.failing then .error redisDown
  else
    .ok { c with entries :=
      c.entries.filter fun e =>
        !(strPrefix ("flag:" ++ environment_key ++ ":") e.1) }

end CacheService

/-! ### EvaluationService (embedding of `app/services/evaluation.py`) -/

/-- Python truthiness of an optional string: `None` and `""` are falsy.
Models the `if not user_id:` guard (evaluation.py:133). -/
def pyTruthy : Option String → Bool
  | none => false
  | some s => !(s == "")

namespace EvaluationService

/-- Embedding of `EvaluationService._evaluate_flag_data` (evaluation.py:102-166). -/
def evaluate_flag_data (flag_data : FlagData) (flag_key : String)
    (user_id : Option String) (cached : Bool) : EvalResult :=
  if !flag_data.is_enabled then
    { enabled := false, flag_key, reason := "Flag is disabled", cached }
  else if flag_data.flag_type == "boolean" then
    { enabled := true, flag_key, reason := "Boolean flag is enabled", cached }
  else if flag_data.flag_type == "percentage" then
    if !pyTruthy user_id then
      { enabled := false, flag_key,
        reason := "Percentage flag requires user_id", cached }
    else
      let bucket := get_bucket flag_key (user_id.getD "")
      let rollout := flag_data.rollout_percentage
      if bucket < rollout then
        { enabled := true, flag_key,
          reason := "User bucket " ++ toString bucket ++ " is within " ++
            toString rollout ++ "% rollout", cached }
      else
        { enabled := false, flag_key,
          reason := "User bucket " ++ toString bucket ++ " is outside " ++
            toString rollout ++ "% rollout", cached }
  else
    { enabled := false, flag_key,
      reason := "Unknown flag type: " ++ flag_data.flag_type, cached }

/-- Reason of the environment-not-found result (evaluation.py:66). -/
def envNotFoundReason (environment_key : String) : String :=
  "Environment " ++ sq ++ environment_key ++ sq ++ " not found"

/-- Reason of the flag-not-found result (evaluation.py:80). -/
def flagNotFoundReason (flag_key environment_key : String) : String :=
  "Flag " ++ sq ++ flag_key ++ sq ++ " not found in environment " ++
    sq ++ environment_key ++ sq

/-- Embedding of `EvaluationService.evaluate` (evaluation.py:22-100): cache lookup, then
environment lookup, then flag lookup, cache population, decision.  Returns
the result together with the cache state after the call; a Redis exception
propagates (there is no try/except on this path in the source). -/
def evaluate (db : Db) (cache : CacheState) (flag_key environment_key : String)
    (user_id : Option String) : Except String (EvalResult × CacheState) :=
  match CacheService.get_flag cache flag_key environment_key with
  | .error e => .error e
  | .ok (some fd) => .ok (evaluate_flag_data fd flag_key user_id true, cache)
  | .ok none =>
    match db.environments.find? (fun e => e.key == environment_key) with
    | none =>
      .ok ({ enabled := false, flag_key,
             reason := envNotFoundReason environment_key,
             cached := false }, cache)
    | some environment =>
      match db.flags.find?
          (fun f => f.key == flag_key && f.environment_id == environment.id) with
      | none =>
        .ok ({ enabled := false, flag_key,
               reason := flagNotFoundReason flag_key environment_key,
               cached := false }, cache)
      | some flag =>
        let flag_data : FlagData :=
          { is_enabled := flag.is_enabled, flag_type := flag.flag_type,
            rollout_percentage := flag.rollout_percentage }
        match CacheService.set_flag cache flag_key environment_key flag_data with
        | .error e => .error e
        | .ok cache2 =>
          .ok (evaluate_flag_data flag_data flag_key user_id false, cache2)

end EvaluationService

/-! ### Router operations (embeddings of the write paths the claims cite) -/

/-- The body of a `PUT /flags/\x7bflag_key\x7d` request
(`FlagUpdate`, app/schemas/flag.py:44-51); fields not affecting evaluation
are omitted.  An absent field leaves the row's value unchanged. -/
structure FlagUpdate where
  flag_type : Option String := none
  is_enabled : Option Bool := none
  rollout_percentage : Option Nat := none
deriving Repr, DecidableEq

/-- Embedding of `setattr` loop of `update_flag` (flags.py:201-203) on one row. -/
def applyUpdate (f : FlagRec) (u : FlagUpdate) : FlagRec :=
  { f with
    flag_type := u.flag_type.getD f.flag_type
    is_enabled := u.is_enabled.getD f.is_enabled
    rollout_percentage := u.rollout_percentage.getD f.rollout_percentage }

namespace FlagsRouter

/-- Embedding of `update_flag` (app/routers/flags.py:154-233): find the environment and
the flag (404 on absence), apply the provided fields, `db.commit()`, then —
after the commit — `cache.invalidate_flag(flag_key, environment_key)`.
The audit-log write does not touch flags or the cache and is omitted.
Returns the new store, the cache after invalidation, and the updated row. -/
def update_flag (db : Db) (cache : CacheState) (flag_key : String)
    (flag_data : FlagUpdate) (environment_key : String) :
    Except String (Db × CacheState × FlagRec) :=
  match db.environments.find? (fun e => e.key == environment_key) with
  | none => .error ("404: " ++ EvaluationService.envNotFoundReason environment_key)
  | some environment =>
    match db.flags.find?
        (fun f => f.key == flag_key && f.environment_id == environment.id) with
    | none => .error "404: flag not found"
    | some flag =>
      let flag2 := applyUpdate flag flag_data
      let flags2 := db.flags.map fun f =>
        if f.key == flag_key && f.environment_id == environment.id then flag2
        else f
      let db2 : Db := { db with flags := flags2 }
      match CacheService.invalidate_flag cache flag_key environment_key with
      | .error e => .error e
      | .ok cache2 => .ok (db2, cache2, flag2)

end FlagsRouter

namespace EnvironmentsRouter

/-- Embedding of `delete_environment` (app/routers/environments.py:74-92): find the
environment (404 on absence), `db.delete(environment)`, `db.commit()`, and
return.  Note: the handler performs no cache operation of any kind — it
neither constructs a `CacheService` nor calls `invalidate_environment` —
so the cache state it returns is the one it was given. -/
def delete_environment (db : Db) (cache : CacheState) (env_key : String) :
    Except String (Db × CacheState) :=
  match db.environments.find? (fun e => e.key == env_key) with
  | none => .error "404: environment not found"
  | some _ =>
    .ok ({ db with environments :=
            db.environments.filter (fun e => !(e.key == env_key)) }, cache)

end EnvironmentsRouter

/-! ### Concrete fixtures (used by closed theorems and witnesses) -/

/-- Fixture: a store with one environment and two flags. -/
def dbProd : Db :=
  { environments := [{ id := "env-1", key := "production" }]
    flags :=
      [{ key := "dark-mode", environment_id := "env-1", is_enabled := true,
         flag_type := "boolean", rollout_percentage := 0 },
       { key := "new-checkout", environment_id := "env-1", is_enabled := true,
         flag_type := "percentage", rollout_percentage := 50 }] }

/-- Fixture: an empty, healthy cache. -/
def emptyCache : CacheState := { entries := [], failing := false }

/-- Fixture: an empty cache whose Redis backend is unreachable. -/
def downCache : CacheState := { entries := [], failing := true }

/-- Fixture: a healthy cache holding one entry under the `production`
namespace. -/
def cacheProd : CacheState :=
  { entries := [("flag:production:dark-mode",
      { is_enabled := true, flag_type := "boolean", rollout_percentage := 0 })]
    failing := false }

/-- Fixture: the update body `\x7b"rollout_percentage": 80\x7d`. -/
def upd80 : FlagUpdate := { rollout_percentage := some 80 }

/-- Fixture: `dbProd` after `upd80` is applied to `new-checkout`. -/
def dbProd80 : Db :=
  { environments := [{ id := "env-1", key := "production" }]
    flags :=
      [{ key := "dark-mode", environment_id := "env-1", is_enabled := true,
         flag_type := "boolean", rollout_percentage := 0 },
       { key := "new-checkout", environment_id := "env-1", is_enabled := true,
         flag_type := "percentage", rollout_percentage := 80 }] }

/-- Fixture: the `new-checkout` row after the update. -/
def flagNC80 : FlagRec :=
  { key := "new-checkout", environment_id := "env-1", is_enabled := true,
    flag_type := "percentage", rollout_percentage := 80 }

/-! ### Sanity checks of the MD5 embedding against `hashlib` -/

example : hexdigest [] = "d41d8cd98f00b204e9800998ecf8427e" := by decide
example : hexdigest (utf8Encode "abc") = "900150983cd24fb0d6963f7d28e17f72" := by decide
example : get_bucket "new-checkout" "alice" = 53 := by decide
example : get_bucket "new-checkout" "bob" = 70 := by decide
example : get_bucket "dark-mode" "alice" = 88 := by decide

/-! ### Helper lemmas (shared; none is a claim's theorem) -/

/-- Helper: the bucket is a remainder mod 100, hence below 100. -/
theorem get_bucket_lt_100 (flag_key user_id : String) :
    get_bucket flag_key user_id < 100 := by
  show parseHex _ % 100 < 100
  exact Nat.mod_lt _ (by norm_num)

/-- Helper: `_evaluate_flag_data` copies its `cached` argument into the
`cached` field on every path. -/
theorem evaluate_flag_data_cached (fd : FlagData) (fk : String)
    (uid : Option String) (b : Bool) :
    (EvaluationService.evaluate_flag_data fd fk uid b).cached = b := by
  unfold EvaluationService.evaluate_flag_data
  dsimp only
  repeat' split
  all_goals rfl

/-- Helper: the `enabled` decision of `_evaluate_flag_data` does not depend
on the `cached` argument. -/
theorem evaluate_flag_data_enabled_irrel (fd : FlagData) (fk : String)
    (uid : Option String) (b1 b2 : Bool) :
    (EvaluationService.evaluate_flag_data fd fk uid b1).enabled =
      (EvaluationService.evaluate_flag_data fd fk uid b2).enabled := by
  unfold EvaluationService.evaluate_flag_data
  dsimp only
  repeat' split
  all_goals rfl

/-- Helper: on an enabled percentage flag with a truthy user id,
`_evaluate_flag_data` decides by comparing the bucket with the rollout. -/
theorem efd_percentage_decision (p : Nat) (fk uid : String) (b : Bool)
    (huid : ¬ uid = "") :
    EvaluationService.evaluate_flag_data ⟨true, "percentage", p⟩ fk (some uid) b =
      (if get_bucket fk uid < p then
        ({ enabled := true, flag_key := fk,
           reason := "User bucket " ++ toString (get_bucket fk uid) ++
             " is within " ++ toString p ++ "% rollout", cached := b } : EvalResult)
      else
        { enabled := false, flag_key := fk,
          reason := "User bucket " ++ toString (get_bucket fk uid) ++
            " is outside " ++ toString p ++ "% rollout", cached := b }) := by
  have hp : pyTruthy (some uid) = true := by
    simp [pyTruthy]
    exact huid
  have hb1 : (("percentage" : String) == "boolean") = false := by decide
  have hb2 : (("percentage" : String) == "percentage") = true := by decide
  unfold EvaluationService.evaluate_flag_data
  simp [hp, hb1, hb2]

/-- Helper: `get_flag` right after a successful `set_flag` of the same key
hits and returns the entry just written. -/
theorem get_flag_after_set (c c2 : CacheState) (fk ek : String) (fd : FlagData)
    (h : CacheService.set_flag c fk ek fd = .ok c2) :
    CacheService.get_flag c2 fk ek = .ok (some fd) := by
  unfold CacheService.set_flag at h
  split at h
  · exact absurd h (by simp)
  · rename_i hf
    injection h with h
    subst h
    unfold CacheService.get_flag
    simp only [hf]
    rw [List.find?_cons_of_pos _ (by simp)]
    simp

/-- Helper: a lookup for key `k` misses after every entry with key `k` has
been filtered out. -/
theorem find?_filter_key_ne (l : List (String × FlagData)) (k : String) :
    (l.filter fun e => e.1 != k).find? (fun e => e.1 == k) = none := by
  induction l with
  | nil => rfl
  | cons x xs ih =>
    rw [List.filter_cons]
    by_cases hx : (x.1 == k) = true
    · rw [if_neg (by simp [bne, hx])]
      exact ih
    · rw [if_pos (by simp [bne, hx])]
      have hx2 : (x.1 == k) = false := by simpa using hx
      simp [List.find?_cons, hx2, ih]

/-- Helper: replacing the found element by `g` (with `p g` still true) makes
the search find `g`. -/
theorem find?_map_if (l : List FlagRec) (p : FlagRec → Bool) (g : FlagRec)
    (a : FlagRec) (ha : l.find? p = some a) (hg : p g = true) :
    (l.map fun f => if p f then g else f).find? p = some g := by
  induction l with
  | nil => simp at ha
  | cons x xs ih =>
    by_cases hx : p x
    · simp only [List.map_cons, if_pos hx]
      rw [List.find?_cons_of_pos _ hg]
    · rw [List.find?_cons_of_neg _ hx] at ha
      simp only [List.map_cons, if_neg hx]
      rw [List.find?_cons_of_neg _ hx]
      exact ih ha

/-- Helper: `_evaluate_flag_data` gives the same result for an empty-string
user id as for an absent one (both are falsy in Python). -/
theorem efd_user_empty_eq_none (fd : FlagData) (fk : String) (b : Bool) :
    EvaluationService.evaluate_flag_data fd fk (some "") b =
      EvaluationService.evaluate_flag_data fd fk none b := rfl

/-! ### C1 — bucketing matches the spec's reference definition -/

/-- C1: for every pair of strings, `_get_bucket` equals the reference
definition from the spec (MD5 of `flag_key ++ ":" ++ user_id` over UTF-8
bytes, first 8 hex characters parsed as a 32-bit unsigned integer, mod 100),
and its result always lies in `[0, 100)`. -/
theorem get_bucket_matches_spec_and_in_range (flag_key user_id : String) :
    get_bucket flag_key user_id = bucket_spec flag_key user_id ∧
    get_bucket flag_key user_id < 100 :=
  ⟨rfl, get_bucket_lt_100 flag_key user_id⟩

/-! ### C2 — a cache backend failure is NOT absorbed by `evaluate`

`CacheService.get_flag` (cache.py:33-45) calls `self.client.get(key)` with
no `try`/`except`, and `EvaluationService.evaluate` (evaluation.py:44-54)
calls `self.cache.get_flag(...)` equally unguarded, so a Redis connection
error propagates out of the evaluation call instead of degrading to a cache
miss. -/

/-- C2 (failing-input evaluation): with the Redis backend unreachable and
the flag present in the authoritative store, `evaluate` raises the Redis
error instead of returning a result; the claimed behaviour would have been
the `.ok` fall-through to the store shown in the second conjunct. -/
theorem evaluate_propagates_cache_failure :
    EvaluationService.evaluate dbProd downCache "dark-mode" "production" none
      = .error redisDown ∧
    EvaluationService.evaluate dbProd emptyCache "dark-mode" "production" none
      = .ok ({ enabled := true, flag_key := "dark-mode",
               reason := "Boolean flag is enabled", cached := false },
             { entries := [("flag:production:dark-mode",
                 { is_enabled := true, flag_type := "boolean",
                   rollout_percentage := 0 })],
               failing := false }) := by
  exact ⟨rfl, rfl⟩

/-! ### C3 — environment deletion does NOT invalidate the cache

`delete_environment` (environments.py:74-92) deletes the row and returns; it
never constructs a `CacheService` and `CacheService.invalidate_environment`
has no caller anywhere in the repository. -/

/-- C3 (failing-input evaluation): deleting environment `production` while
the cache holds an entry under `flag:production:*` succeeds and returns the
cache untouched — the stale entry survives — whereas the (uncalled)
`invalidate_environment` would have emptied exactly that namespace. -/
theorem delete_environment_leaves_cache :
    EnvironmentsRouter.delete_environment dbProd cacheProd "production"
      = .ok ({ environments := [], flags := dbProd.flags }, cacheProd) ∧
    cacheProd.entries =
      [("flag:production:dark-mode",
        { is_enabled := true, flag_type := "boolean", rollout_percentage := 0 })] ∧
    CacheService.invalidate_environment cacheProd "production"
      = .ok { entries := [], failing := false } := by
  refine ⟨rfl, rfl, ?_⟩
  rfl

/-! ### C4 — missing entities give a normal disabled result, not an error -/

/-- C4: on a cache miss (healthy backend, no entry for the key), if the
environment — or the flag within a found environment — is absent from the
authoritative store, `evaluate` does not raise: it returns a normal result
with `enabled = false`, `cached = false`, and a reason string containing
"not found" (naming the missing entity). -/
theorem evaluate_not_found_normal (db : Db) (c : CacheState)
    (fk ek : String) (uid : Option String)
    (hc : c.failing = false)
    (hmiss : c.entries.find? (fun e => e.1 == CacheService.make_key fk ek) = none)
    (habsent : db.environments.find? (fun e => e.key == ek) = none ∨
      ∃ env, db.environments.find? (fun e => e.key == ek) = some env ∧
        db.flags.find?
          (fun f => f.key == fk && f.environment_id == env.id) = none) :
    ∃ r, EvaluationService.evaluate db c fk ek uid = .ok (r, c) ∧
      r.enabled = false ∧ r.cached = false ∧
      ∃ pre post, r.reason = pre ++ "not found" ++ post := by
  have hget : CacheService.get_flag c fk ek = .ok none := by
    unfold CacheService.get_flag
    rw [hc]
    simp [hmiss]
  unfold EvaluationService.evaluate
  rcases habsent with henv | ⟨env, henv, hflag⟩
  · simp only [hget, henv]
    refine ⟨_, rfl, rfl, rfl,
      "Environment " ++ sq ++ ek ++ sq ++ " ", "", ?_⟩
    simp only [EvaluationService.envNotFoundReason, String.append_empty,
      String.append_assoc]
    rfl
  · simp only [hget, henv, hflag]
    refine ⟨_, rfl, rfl, rfl,
      "Flag " ++ sq ++ fk ++ sq ++ " ",
      " in environment " ++ sq ++ ek ++ sq, ?_⟩
    simp only [EvaluationService.flagNotFoundReason, String.append_assoc]
    rfl

/-- Witness for C4 at a concrete input: empty store, empty cache. -/
theorem evaluate_not_found_normal_witness :
    emptyCache.failing = false ∧
    emptyCache.entries.find?
      (fun e => e.1 == CacheService.make_key "new-checkout" "staging") = none ∧
    (Db.mk [] []).environments.find? (fun e => e.key == "staging") = none ∧
    ∃ r, EvaluationService.evaluate (Db.mk [] []) emptyCache
        "new-checkout" "staging" (some "alice") = .ok (r, emptyCache) ∧
      r.enabled = false ∧ r.cached = false ∧
      ∃ pre post, r.reason = pre ++ "not found" ++ post :=
  ⟨rfl, rfl, rfl,
    evaluate_not_found_normal (Db.mk [] []) emptyCache "new-checkout" "staging"
      (some "alice") rfl rfl (Or.inl rfl)⟩

/-! ### C8 — populate-on-miss round trip -/

/-- C8: if an `evaluate` call misses the cache and populates it from the
authoritative store (returning `cached = false`), an immediately following
`evaluate` call with identical arguments — no intervening write,
invalidation, or TTL expiry — returns `cached = true` and the identical
`enabled` value. -/
theorem cache_roundtrip (db : Db) (c : CacheState) (fk ek : String)
    (uid : Option String) (env : EnvRec) (flag : FlagRec)
    (hc : c.failing = false)
    (hmiss : c.entries.find? (fun e => e.1 == CacheService.make_key fk ek) = none)
    (henv : db.environments.find? (fun e => e.key == ek) = some env)
    (hflag : db.flags.find?
      (fun f => f.key == fk && f.environment_id == env.id) = some flag) :
    ∃ r1 c1 r2 c2,
      EvaluationService.evaluate db c fk ek uid = .ok (r1, c1) ∧
      EvaluationService.evaluate db c1 fk ek uid = .ok (r2, c2) ∧
      r1.cached = false ∧ r2.cached = true ∧ r2.enabled = r1.enabled := by
  have hget : CacheService.get_flag c fk ek = .ok none := by
    unfold CacheService.get_flag
    rw [hc]
    simp [hmiss]
  have hset : CacheService.set_flag c fk ek
      ⟨flag.is_enabled, flag.flag_type, flag.rollout_percentage⟩ =
      .ok (CacheState.mk
        ((CacheService.make_key fk ek,
          ⟨flag.is_enabled, flag.flag_type, flag.rollout_percentage⟩) ::
          c.entries.filter (fun e => e.1 != CacheService.make_key fk ek))
        false) := by
    unfold CacheService.set_flag
    rw [hc]
    rfl
  have hget2 := get_flag_after_set c _ fk ek
    ⟨flag.is_enabled, flag.flag_type, flag.rollout_percentage⟩ hset
  have e1 : EvaluationService.evaluate db c fk ek uid =
      .ok (EvaluationService.evaluate_flag_data
          ⟨flag.is_enabled, flag.flag_type, flag.rollout_percentage⟩ fk uid false,
        CacheState.mk
          ((CacheService.make_key fk ek,
            ⟨flag.is_enabled, flag.flag_type, flag.rollout_percentage⟩) ::
            c.entries.filter (fun e => e.1 != CacheService.make_key fk ek))
          false) := by
    unfold EvaluationService.evaluate
    simp only [hget, henv, hflag, hset]
  have e2 : EvaluationService.evaluate db
      (CacheState.mk
        ((CacheService.make_key fk ek,
          ⟨flag.is_enabled, flag.flag_type, flag.rollout_percentage⟩) ::
          c.entries.filter (fun e => e.1 != CacheService.make_key fk ek))
        false) fk ek uid =
      .ok (EvaluationService.evaluate_flag_data
          ⟨flag.is_enabled, flag.flag_type, flag.rollout_percentage⟩ fk uid true,
        CacheState.mk
          ((CacheService.make_key fk ek,
            ⟨flag.is_enabled, flag.flag_type, flag.rollout_percentage⟩) ::
            c.entries.filter (fun e => e.1 != CacheService.make_key fk ek))
          false) := by
    unfold EvaluationService.evaluate
    simp only [hget2]
  exact ⟨_, _, _, _, e1, e2,
    evaluate_flag_data_cached _ fk uid false,
    evaluate_flag_data_cached _ fk uid true,
    evaluate_flag_data_enabled_irrel _ fk uid true false⟩

/-- Witness for C8 at a concrete input: `new-checkout` in `production`. -/
theorem cache_roundtrip_witness :
    emptyCache.failing = false ∧
    emptyCache.entries.find?
      (fun e => e.1 == CacheService.make_key "new-checkout" "production") = none ∧
    dbProd.environments.find? (fun e => e.key == "production") =
      some (EnvRec.mk "env-1" "production") ∧
    dbProd.flags.find?
      (fun f => f.key == "new-checkout" && f.environment_id == "env-1") =
      some (FlagRec.mk "new-checkout" "env-1" true "percentage" 50) ∧
    ∃ r1 c1 r2 c2,
      EvaluationService.evaluate dbProd emptyCache "new-checkout" "production"
        (some "alice") = .ok (r1, c1) ∧
      EvaluationService.evaluate dbProd c1 "new-checkout" "production"
        (some "alice") = .ok (r2, c2) ∧
      r1.cached = false ∧ r2.cached = true ∧ r2.enabled = r1.enabled :=
  ⟨rfl, rfl, rfl, rfl,
    cache_roundtrip dbProd emptyCache "new-checkout" "production" (some "alice")
      (EnvRec.mk "env-1" "production")
      (FlagRec.mk "new-checkout" "env-1" true "percentage" 50)
      rfl rfl rfl rfl⟩

/-- Helper: the `reason` string of `_evaluate_flag_data` does not depend on
the `cached` argument either. -/
theorem evaluate_flag_data_reason_irrel (fd : FlagData) (fk : String)
    (uid : Option String) (b1 b2 : Bool) :
    (EvaluationService.evaluate_flag_data fd fk uid b1).reason =
      (EvaluationService.evaluate_flag_data fd fk uid b2).reason := by
  unfold EvaluationService.evaluate_flag_data
  dsimp only
  repeat' split
  all_goals rfl

/-! ### C5 — evaluation is deterministic -/

/-- C5: determinism: for a fixed store and fixed inputs, two consecutive
runs of `evaluate` — the second observing the cache state left behind by the
first — return the same `enabled` value and the same reason (same bucket,
same comparison; only the `cached` marker may differ). -/
theorem evaluate_deterministic (db : Db) (c : CacheState)
    (fk ek : String) (uid : Option String) (r1 r2 : EvalResult)
    (c1 c2 : CacheState)
    (h1 : EvaluationService.evaluate db c fk ek uid = .ok (r1, c1))
    (h2 : EvaluationService.evaluate db c1 fk ek uid = .ok (r2, c2)) :
    r2.enabled = r1.enabled ∧ r2.reason = r1.reason := by
  unfold EvaluationService.evaluate at h1 h2
  split at h1
  · exact absurd h1 (by simp)
  · rename_i fd hfd
    rw [Except.ok.injEq, Prod.mk.injEq] at h1
    obtain ⟨hr1, hc1⟩ := h1
    subst hc1
    simp only [hfd] at h2
    rw [Except.ok.injEq, Prod.mk.injEq] at h2
    obtain ⟨hr2, hc2⟩ := h2
    subst hr1
    subst hr2
    exact ⟨rfl, rfl⟩
  · rename_i hnone
    split at h1
    · rename_i henv
      rw [Except.ok.injEq, Prod.mk.injEq] at h1
      obtain ⟨hr1, hc1⟩ := h1
      subst hc1
      simp only [hnone, henv] at h2
      rw [Except.ok.injEq, Prod.mk.injEq] at h2
      obtain ⟨hr2, hc2⟩ := h2
      subst hr1
      subst hr2
      exact ⟨rfl, rfl⟩
    · rename_i env henv
      split at h1
      · rename_i hflag
        rw [Except.ok.injEq, Prod.mk.injEq] at h1
        obtain ⟨hr1, hc1⟩ := h1
        subst hc1
        simp only [hnone, henv, hflag] at h2
        rw [Except.ok.injEq, Prod.mk.injEq] at h2
        obtain ⟨hr2, hc2⟩ := h2
        subst hr1
        subst hr2
        exact ⟨rfl, rfl⟩
      · rename_i flag hflag
        dsimp only at h1
        split at h1
        · exact absurd h1 (by simp)
        · rename_i cache2 hset
          rw [Except.ok.injEq, Prod.mk.injEq] at h1
          obtain ⟨hr1, hc1⟩ := h1
          subst hc1
          have hg2 := get_flag_after_set c cache2 fk ek
            ⟨flag.is_enabled, flag.flag_type, flag.rollout_percentage⟩ hset
          simp only [hg2] at h2
          rw [Except.ok.injEq, Prod.mk.injEq] at h2
          obtain ⟨hr2, hc2⟩ := h2
          subst hr1
          subst hr2
          exact ⟨evaluate_flag_data_enabled_irrel _ fk uid true false,
            evaluate_flag_data_reason_irrel _ fk uid true false⟩

/-- Witness for C5 at a concrete input: two consecutive evaluations of
`new-checkout` for `alice` (bucket 53, rollout 50). -/
theorem evaluate_deterministic_witness :
    EvaluationService.evaluate dbProd emptyCache "new-checkout" "production"
      (some "alice") =
      .ok ({ enabled := false, flag_key := "new-checkout",
             reason := "User bucket 53 is outside 50% rollout",
             cached := false },
           { entries := [("flag:production:new-checkout",
               { is_enabled := true, flag_type := "percentage",
                 rollout_percentage := 50 })],
             failing := false }) ∧
    EvaluationService.evaluate dbProd
      { entries := [("flag:production:new-checkout",
          { is_enabled := true, flag_type := "percentage",
            rollout_percentage := 50 })],
        failing := false } "new-checkout" "production" (some "alice") =
      .ok ({ enabled := false, flag_key := "new-checkout",
             reason := "User bucket 53 is outside 50% rollout",
             cached := true },
           { entries := [("flag:production:new-checkout",
               { is_enabled := true, flag_type := "percentage",
                 rollout_percentage := 50 })],
             failing := false }) ∧
    (({ enabled := false, flag_key := "new-checkout",
        reason := "User bucket 53 is outside 50% rollout",
        cached := true } : EvalResult).enabled =
      ({ enabled := false, flag_key := "new-checkout",
         reason := "User bucket 53 is outside 50% rollout",
         cached := false } : EvalResult).enabled ∧
     ({ enabled := false, flag_key := "new-checkout",
        reason := "User bucket 53 is outside 50% rollout",
        cached := true } : EvalResult).reason =
      ({ enabled := false, flag_key := "new-checkout",
         reason := "User bucket 53 is outside 50% rollout",
         cached := false } : EvalResult).reason) :=
  ⟨rfl, rfl,
    evaluate_deterministic dbProd emptyCache "new-checkout" "production"
      (some "alice") _ _ _ _ rfl rfl⟩

/-! ### C6 — rollout is monotone in the percentage -/

/-- C6: for a fixed `(flag_key, user_id)` and an enabled percentage flag,
if evaluation yields `enabled = true` at rollout percentage `p`, it also
yields `enabled = true` at any larger percentage `q` (the comparison is
`bucket < percentage`). -/
theorem rollout_monotone (fk uid : String) (b : Bool) (p q : Nat)
    (hpq : p < q)
    (h : (EvaluationService.evaluate_flag_data
      ⟨true, "percentage", p⟩ fk (some uid) b).enabled = true) :
    (EvaluationService.evaluate_flag_data
      ⟨true, "percentage", q⟩ fk (some uid) b).enabled = true := by
  by_cases huid : uid = ""
  · subst huid
    have hfalse : (EvaluationService.evaluate_flag_data
        ⟨true, "percentage", p⟩ fk (some "") b).enabled = false := rfl
    rw [hfalse] at h
    exact absurd h (by decide)
  · rw [efd_percentage_decision p fk uid b huid] at h
    rw [efd_percentage_decision q fk uid b huid]
    by_cases hb : get_bucket fk uid < p
    · have hq : get_bucket fk uid < q := lt_trans hb hpq
      rw [if_pos hq]
    · rw [if_neg hb] at h
      simp at h

/-- Witness for C6 at a concrete input: bucket("new-checkout","alice") = 53,
enabled at 60 hence enabled at 70. -/
theorem rollout_monotone_witness :
    (60 : Nat) < 70 ∧
    (EvaluationService.evaluate_flag_data
      ⟨true, "percentage", 60⟩ "new-checkout" (some "alice") false).enabled = true ∧
    (EvaluationService.evaluate_flag_data
      ⟨true, "percentage", 70⟩ "new-checkout" (some "alice") false).enabled = true :=
  ⟨by decide, by decide,
    rollout_monotone "new-checkout" "alice" false 60 70 (by decide) (by decide)⟩

/-! ### C7 — rollout boundaries 0 and 100 -/

/-- C7: for an enabled percentage flag with a (non-empty) user id,
rollout 0 disables every user and rollout 100 enables every user, because
every bucket lies in `[0, 100)`.  (The empty-string user id is not a
supplied user id: the code treats it as absent, see the C10 theorem.) -/
theorem rollout_boundaries (fk uid : String) (b : Bool) (huid : ¬ uid = "") :
    (EvaluationService.evaluate_flag_data
      ⟨true, "percentage", 0⟩ fk (some uid) b).enabled = false ∧
    (EvaluationService.evaluate_flag_data
      ⟨true, "percentage", 100⟩ fk (some uid) b).enabled = true := by
  rw [efd_percentage_decision 0 fk uid b huid,
    efd_percentage_decision 100 fk uid b huid]
  constructor
  · rw [if_neg (by omega)]
  · rw [if_pos (get_bucket_lt_100 fk uid)]

/-- Witness for C7 at a concrete input. -/
theorem rollout_boundaries_witness :
    ¬ ("alice" : String) = "" ∧
    ((EvaluationService.evaluate_flag_data
      ⟨true, "percentage", 0⟩ "new-checkout" (some "alice") false).enabled = false ∧
    (EvaluationService.evaluate_flag_data
      ⟨true, "percentage", 100⟩ "new-checkout" (some "alice") false).enabled = true) :=
  ⟨by decide, rollout_boundaries "new-checkout" "alice" false (by decide)⟩

/-! ### C10 — the empty-string user id is treated as absent -/

/-- C10: `evaluate` with `user_id = ""` behaves exactly as with no user id
at all, and on an enabled percentage flag `_evaluate_flag_data` answers
`enabled = false` with reason "Percentage flag requires user_id" (the
`if not user_id` guard is a falsiness check, so no bucket is computed). -/
theorem empty_user_id_treated_as_absent (db : Db) (c : CacheState)
    (fk ek : String) (fd : FlagData) (b : Bool)
    (h1 : fd.is_enabled = true) (h2 : fd.flag_type = "percentage") :
    EvaluationService.evaluate db c fk ek (some "") =
      EvaluationService.evaluate db c fk ek none ∧
    EvaluationService.evaluate_flag_data fd fk (some "") b =
      { enabled := false, flag_key := fk,
        reason := "Percentage flag requires user_id", cached := b } ∧
    EvaluationService.evaluate_flag_data fd fk (some "") b =
      EvaluationService.evaluate_flag_data fd fk none b := by
  refine ⟨rfl, ?_, efd_user_empty_eq_none fd fk b⟩
  unfold EvaluationService.evaluate_flag_data
  rw [h2, show pyTruthy (some "") = false from rfl]
  simp [h1]

/-- Witness for C10 at a concrete input. -/
theorem empty_user_id_treated_as_absent_witness :
    (FlagData.mk true "percentage" 50).is_enabled = true ∧
    (FlagData.mk true "percentage" 50).flag_type = "percentage" ∧
    (EvaluationService.evaluate dbProd emptyCache "new-checkout" "production" (some "") =
      EvaluationService.evaluate dbProd emptyCache "new-checkout" "production" none ∧
    EvaluationService.evaluate_flag_data
      (FlagData.mk true "percentage" 50) "new-checkout" (some "") false =
      { enabled := false, flag_key := "new-checkout",
        reason := "Percentage flag requires user_id", cached := false } ∧
    EvaluationService.evaluate_flag_data
      (FlagData.mk true "percentage" 50) "new-checkout" (some "") false =
      EvaluationService.evaluate_flag_data
        (FlagData.mk true "percentage" 50) "new-checkout" none false) :=
  ⟨rfl, rfl,
    empty_user_id_treated_as_absent dbProd emptyCache "new-checkout" "production"
      (FlagData.mk true "percentage" 50) false rfl rfl⟩

/-! ### C9 — commit-then-invalidate freshness -/

/-- C9: `update_flag` first commits the change to the store and then deletes
the cache entry for `(environment_key, flag_key)`; consequently, once the
update (with its invalidation) completes, the next `evaluate` call for that
flag misses the cache (`cached = false`) and computes its result from the
updated configuration. -/
theorem update_then_fresh (db : Db) (c : CacheState) (fk ek : String)
    (upd : FlagUpdate) (uid : Option String)
    (db2 : Db) (c2 : CacheState) (flag2 : FlagRec)
    (hc : c.failing = false)
    (h : FlagsRouter.update_flag db c fk upd ek = .ok (db2, c2, flag2)) :
    ∃ r c3, EvaluationService.evaluate db2 c2 fk ek uid = .ok (r, c3) ∧
      r.cached = false ∧
      r = EvaluationService.evaluate_flag_data
        ⟨flag2.is_enabled, flag2.flag_type, flag2.rollout_percentage⟩
        fk uid false := by
  have hinv : CacheService.invalidate_flag c fk ek =
      .ok (CacheState.mk
        (c.entries.filter fun e => e.1 != CacheService.make_key fk ek)
        false) := by
    unfold CacheService.invalidate_flag
    rw [hc]
    rfl
  unfold FlagsRouter.update_flag at h
  split at h
  · exact absurd h (by simp)
  · rename_i env henv
    split at h
    · exact absurd h (by simp)
    · rename_i flag hflag
      dsimp only at h
      rw [hinv, Except.ok.injEq, Prod.mk.injEq, Prod.mk.injEq] at h
      obtain ⟨hdb, hcc, hfl⟩ := h
      subst hdb
      subst hcc
      subst hfl
      have hget : CacheService.get_flag
          (CacheState.mk
            (c.entries.filter fun e => e.1 != CacheService.make_key fk ek)
            false) fk ek = .ok none := by
        unfold CacheService.get_flag
        rw [find?_filter_key_ne]
        rfl
      have hg0 := List.find?_some hflag
      have hg : ((applyUpdate flag upd).key == fk &&
          (applyUpdate flag upd).environment_id == env.id) = true := hg0
      have hfind2 := find?_map_if db.flags
        (fun f => f.key == fk && f.environment_id == env.id)
        (applyUpdate flag upd) flag hflag hg
      have hset : CacheService.set_flag
          (CacheState.mk
            (c.entries.filter fun e => e.1 != CacheService.make_key fk ek)
            false) fk ek
          ⟨(applyUpdate flag upd).is_enabled, (applyUpdate flag upd).flag_type,
            (applyUpdate flag upd).rollout_percentage⟩ =
          .ok (CacheState.mk
            ((CacheService.make_key fk ek,
              ⟨(applyUpdate flag upd).is_enabled,
                (applyUpdate flag upd).flag_type,
                (applyUpdate flag upd).rollout_percentage⟩) ::
              (c.entries.filter fun e =>
                e.1 != CacheService.make_key fk ek).filter
                (fun e => e.1 != CacheService.make_key fk ek))
            false) := rfl
      refine ⟨EvaluationService.evaluate_flag_data
          ⟨(applyUpdate flag upd).is_enabled, (applyUpdate flag upd).flag_type,
            (applyUpdate flag upd).rollout_percentage⟩ fk uid false,
        CacheState.mk
          ((CacheService.make_key fk ek,
            ⟨(applyUpdate flag upd).is_enabled, (applyUpdate flag upd).flag_type,
              (applyUpdate flag upd).rollout_percentage⟩) ::
            (c.entries.filter fun e =>
              e.1 != CacheService.make_key fk ek).filter
              (fun e => e.1 != CacheService.make_key fk ek))
          false,
        ?_, evaluate_flag_data_cached _ fk uid false, rfl⟩
      unfold EvaluationService.evaluate
      simp only [hget, henv, hfind2, hset]

/-- Witness for C9 at a concrete input: raising the rollout of
`new-checkout` to 80 and evaluating for `alice` (bucket 53 < 80). -/
theorem update_then_fresh_witness :
    emptyCache.failing = false ∧
    FlagsRouter.update_flag dbProd emptyCache "new-checkout" upd80 "production"
      = .ok (dbProd80, emptyCache, flagNC80) ∧
    ∃ r c3, EvaluationService.evaluate dbProd80 emptyCache "new-checkout"
        "production" (some "alice") = .ok (r, c3) ∧
      r.cached = false ∧
      r = EvaluationService.evaluate_flag_data
        ⟨flagNC80.is_enabled, flagNC80.flag_type, flagNC80.rollout_percentage⟩
        "new-checkout" (some "alice") false :=
  ⟨rfl, rfl,
    update_then_fresh dbProd emptyCache "new-checkout" "production" upd80
      (some "alice") dbProd80 emptyCache flagNC80 rfl rfl⟩

end FeatureFlag
